/-
Verification of the atomic sale-processing core of the DBMS_Project
repository (src/db_setup.sql: stored procedure `make_sale`, trigger
`trg_sale_item_after_insert`; src/routes/products.js: POST /api/sale).

Shallow embedding conventions:
* Money (DECIMAL(10,2)) is modelled in integer cents as `Nat` (both
  `price` columns carry CHECK (price >= 0) / NOT NULL).
* `stock INT` is modelled as `Int`; the schema's CHECK (stock >= 0) is the
  invariant proved below, not baked into the type.
* Each table is a list of row structures plus an AUTO_INCREMENT counter.
* The MySQL session variable `@from_make_sale` is per-connection state,
  modelled as `Session` (an `Option Int`, NULL when never set).
* A transaction's ROLLBACK is modelled by returning the pre-transaction
  database; a failing single statement (e.g. a trigger SIGNAL) likewise
  leaves the database unchanged (statement-level atomicity).
* Arbitrary storage failures (lock timeouts, FK violations on Customer /
  Salesperson, out-of-range values, transport errors) are modelled by an
  optional injected fault naming the statement at which SQLEXCEPTION is
  raised; the procedure's EXIT HANDLER then performs ROLLBACK; RESIGNAL.
-/
import Mathlib

namespace DBMSProject

/-- Row of table `Product` (src/db_setup.sql lines 48-57).
`price` is in cents (`DECIMAL(10,2)` with CHECK price >= 0). -/
structure Product where
  product_id : Nat
  name : String
  category : String
  price : Nat
  stock : Int
  description : String
  deriving Repr, DecidableEq

/-- Row of table `Sale` (src/db_setup.sql lines 79-87).
`salesperson_id` is nullable; `sale_date` is an abstract timestamp;
`total_amount` is in cents. -/
structure Sale where
  sale_id : Nat
  customer_id : Int
  salesperson_id : Option Int
  sale_date : Nat
  total_amount : Nat
  deriving Repr, DecidableEq

/-- Row of table `Sale_Item` (src/db_setup.sql lines 90-100).
`price` (the line item's unit price snapshot) is in cents. -/
structure SaleItem where
  sale_item_id : Nat
  sale_id : Nat
  product_id : Nat
  quantity : Int
  price : Nat
  deriving Repr, DecidableEq

/-- Row of table `Payment` (src/db_setup.sql lines 102-108). -/
structure Payment where
  payment_id : Nat
  sale_id : Nat
  mode : String
  status : String
  deriving Repr, DecidableEq

/-- The persisted database: the four tables of the sale core plus their
AUTO_INCREMENT counters. -/
structure DBState where
  products : List Product
  sales : List Sale
  sale_items : List SaleItem
  payments : List Payment
  next_sale_id : Nat
  next_sale_item_id : Nat
  next_payment_id : Nat
  deriving Repr, DecidableEq

/-- Per-connection session state: the user variable `@from_make_sale`.
`none` models a connection on which the variable was never set (NULL). -/
structure Session where
  from_make_sale : Option Int
  deriving Repr, DecidableEq

/-- The error outcomes of the sale core.  The first four correspond to the
explicit `SIGNAL SQLSTATE '45000'` statements; `fkViolation` /
`checkViolation` to declarative constraint failures on a direct
`INSERT INTO Sale_Item`; `systemError` to any other storage failure. -/
inductive SqlError where
  | invalidQuantity
  | invalidItem
  | insufficientStock
  | consistencyViolation
  | fkViolation
  | checkViolation
  | systemError
  deriving Repr, DecidableEq, BEq

/-- The storage statements executed by `make_sale`, used both as trace
entries and as fault-injection points. -/
inductive Step where
  | selectForUpdate
  | insertSaleStmt
  | insertItemStmt
  | updateStockStmt
  | updateTotalStmt
  | insertPaymentStmt
  | commitStmt
  deriving Repr, DecidableEq, BEq

/-- The row returned by `make_sale` on success
(`SELECT v_sale_id AS sale_id, v_total AS total_amount`). -/
structure SaleOutput where
  sale_id : Nat
  total_amount : Nat
  deriving Repr, DecidableEq

/-- `SELECT ... FROM Product WHERE product_id = p FOR UPDATE` (point read;
`product_id` is the primary key). -/
def findProduct (db : DBState) (pid : Nat) : Option Product :=
  db.products.find? (fun p => p.product_id == pid)

/-- The stock column read through `findProduct`. -/
def getStock (db : DBState) (pid : Nat) : Option Int :=
  (findProduct db pid).map (fun p => p.stock)

/-- `EXISTS (SELECT 1 FROM Sale WHERE sale_id = sid)` — FK target check. -/
def saleExists (db : DBState) (sid : Nat) : Bool :=
  db.sales.any (fun s => s.sale_id == sid)

/-- `SELECT ... FROM Sale WHERE sale_id = sid` (point read on the PK). -/
def findSale (db : DBState) (sid : Nat) : Option Sale :=
  db.sales.find? (fun s => s.sale_id == sid)

/-- `INSERT INTO Sale(customer_id, salesperson_id, sale_date, total_amount)
VALUES (c, sp, now, 0)` (src/db_setup.sql lines 154-155). -/
def insertSale (db : DBState) (c : Int) (sp : Option Int) (now : Nat) : DBState :=
  { db with
    sales := db.sales ++ [⟨db.next_sale_id, c, sp, now, 0⟩]
    next_sale_id := db.next_sale_id + 1 }

/-- The bare row insertion of `INSERT INTO Sale_Item(...)` (before the
AFTER INSERT trigger runs). -/
def appendSaleItem (db : DBState) (sid pid : Nat) (qty : Int) (price : Nat) : DBState :=
  { db with
    sale_items := db.sale_items ++ [⟨db.next_sale_item_id, sid, pid, qty, price⟩]
    next_sale_item_id := db.next_sale_item_id + 1 }

/-- `UPDATE Product SET stock = stock - qty WHERE product_id = pid`. -/
def updateStockSub (db : DBState) (pid : Nat) (qty : Int) : DBState :=
  { db with
    products := db.products.map
      (fun p => if p.product_id = pid then { p with stock := p.stock - qty } else p) }

/-- `UPDATE Sale SET total_amount = total WHERE sale_id = sid`. -/
def setSaleTotal (db : DBState) (sid : Nat) (total : Nat) : DBState :=
  { db with
    sales := db.sales.map
      (fun s => if s.sale_id = sid then { s with total_amount := total } else s) }

/-- `INSERT INTO Payment(sale_id, mode, status) VALUES (sid, m, st)`. -/
def insertPayment (db : DBState) (sid : Nat) (m st : String) : DBState :=
  { db with
    payments := db.payments ++ [⟨db.next_payment_id, sid, m, st⟩]
    next_payment_id := db.next_payment_id + 1 }

/-- `UPDATE Product SET price = np WHERE product_id = pid`.
Modelled from the spec: src/ contains no price-update code (catalog
management is an external collaborator, spec section 3 and section 4.3
`read/update price`); this is the Catalog Store's price update, needed to
express that a later price change leaves existing line items untouched. -/
def updatePrice (db : DBState) (pid : Nat) (np : Nat) : DBState :=
  { db with
    products := db.products.map
      (fun p => if p.product_id = pid then { p with price := np } else p) }

/-- `UPDATE Payment SET mode = m WHERE sale_id = sid`
(src/routes/products.js, sales route, line 107). -/
def updatePaymentMode (db : DBState) (sid : Nat) (m : String) : DBState :=
  { db with
    payments := db.payments.map
      (fun p => if p.sale_id = sid then { p with mode := m } else p) }

/-- One `INSERT INTO Sale_Item` statement together with its AFTER INSERT
trigger `trg_sale_item_after_insert` (src/db_setup.sql lines 197-215):
insert the row; then, when `IFNULL(@from_make_sale, 0) = 0`, run
`UPDATE Product SET stock = stock - NEW.quantity` and signal
'Stock cannot be negative' when the re-read stock is < 0.  A trigger
error aborts the whole statement, so the caller keeps the old state
on `.error`.  (The schema's CHECK (stock >= 0) would abort the same
statement at the UPDATE itself; either mechanism yields the same
observable all-or-nothing abort, modelled as `consistencyViolation`.) -/
def insertSaleItemStmt (db : DBState) (sess : Session) (sid pid : Nat)
    (qty : Int) (price : Nat) : Except SqlError DBState :=
  if sess.from_make_sale.getD 0 = 0 then
    match getStock (updateStockSub (appendSaleItem db sid pid qty price) pid qty) pid with
    | some s =>
      if s < 0 then .error .consistencyViolation
      else .ok (updateStockSub (appendSaleItem db sid pid qty price) pid qty)
    | none => .ok (updateStockSub (appendSaleItem db sid pid qty price) pid qty)
  else
    .ok (appendSaleItem db sid pid qty price)

/-- A direct, uncoordinated `INSERT INTO Sale_Item` issued outside
`make_sale` (the write path that bypasses the procedure).  The declarative
constraints checked before the row goes in: FK(sale_id) → Sale,
FK(product_id) → Product, CHECK (quantity > 0).  Runs as a single
autocommitted statement: any error leaves the database unchanged. -/
def rawInsertSaleItem (db : DBState) (sess : Session) (sid pid : Nat)
    (qty : Int) (price : Nat) : Except SqlError Unit × DBState :=
  if ¬ saleExists db sid then (.error .fkViolation, db)
  else if (findProduct db pid).isNone then (.error .fkViolation, db)
  else if qty ≤ 0 then (.error .checkViolation, db)
  else
    match insertSaleItemStmt db sess sid pid qty price with
    | .error e => (.error e, db)
    | .ok db' => (.ok (), db')

/-- The full result of one `CALL make_sale(...)`: the value returned to
the client, the persisted database after the call, the connection's
session state after the call, and the trace of storage statements the
call reached. -/
structure SaleCall where
  result : Except SqlError SaleOutput
  db : DBState
  sess : Session
  trace : List Step
  deriving Repr

/-- Trace of a run of `make_sale` that reaches COMMIT. -/
def fullTrace : List Step :=
  [.selectForUpdate, .insertSaleStmt, .insertItemStmt, .updateStockStmt,
   .updateTotalStmt, .insertPaymentStmt, .commitStmt]

/-- The database produced by a successful `make_sale` run, spelled as the
procedure's statement sequence (Sale insert, Sale_Item insert with the
trigger suppressed, stock decrement, total update, Payment insert). -/
def successDb (db : DBState) (c : Int) (pid : Nat) (qty : Int) (sp : Int)
    (now : Nat) (price : Nat) : DBState :=
  insertPayment
    (setSaleTotal
      (updateStockSub
        (appendSaleItem (insertSale db c (if sp = 0 then none else some sp) now)
          db.next_sale_id pid qty price)
        pid qty)
      db.next_sale_id (price * qty.toNat))
    db.next_sale_id "CASH" "SUCCESS"

/-- Body of the stored procedure `make_sale` (src/db_setup.sql lines
119-190), statement by statement, with an optional injected storage
fault.  Returns the transaction's view; `make_sale` below applies the
EXIT HANDLER's ROLLBACK by discarding this view on error.  Session-variable
assignments survive errors (they are not transactional), so the session is
returned as it stood when the error was raised. -/
def make_saleBody (db : DBState) (sess : Session) (fault : Option Step)
    (p_customer_id : Int) (p_product_id : Nat) (p_quantity : Option Int)
    (p_salesperson_id : Int) (now : Nat) : SaleCall :=
  -- IF p_quantity IS NULL OR p_quantity <= 0 THEN SIGNAL ... (before START TRANSACTION)
  match p_quantity with
  | none => ⟨.error .invalidQuantity, db, sess, []⟩
  | some qty =>
    if qty ≤ 0 then ⟨.error .invalidQuantity, db, sess, []⟩
    else
      -- START TRANSACTION; SELECT price, stock INTO v_price, v_stock ... FOR UPDATE
      if fault = some .selectForUpdate then ⟨.error .systemError, db, sess, []⟩
      else
        match findProduct db p_product_id with
        | none =>
          -- IF v_price IS NULL THEN SIGNAL 'Invalid product_id'
          ⟨.error .invalidItem, db, sess, [.selectForUpdate]⟩
        | some prod =>
          -- IF v_stock < p_quantity THEN SIGNAL 'Insufficient stock'
          if prod.stock < qty then
            ⟨.error .insufficientStock, db, sess, [.selectForUpdate]⟩
          else
            -- INSERT INTO Sale(...) VALUES (..., NULLIF(p_salesperson_id, 0), NOW(), 0)
            if fault = some .insertSaleStmt then
              ⟨.error .systemError, db, sess, [.selectForUpdate]⟩
            else
              let v_sale_id := db.next_sale_id
              let db1 := insertSale db p_customer_id
                (if p_salesperson_id = 0 then none else some p_salesperson_id) now
              -- SET @from_make_sale := 1
              let sess1 : Session := ⟨some 1⟩
              -- INSERT INTO Sale_Item(...) (AFTER INSERT trigger runs, suppressed)
              if fault = some .insertItemStmt then
                ⟨.error .systemError, db1, sess1, [.selectForUpdate, .insertSaleStmt]⟩
              else
                match insertSaleItemStmt db1 sess1 v_sale_id p_product_id qty prod.price with
                | .error e =>
                  ⟨.error e, db1, sess1, [.selectForUpdate, .insertSaleStmt]⟩
                | .ok db2 =>
                  -- SET @from_make_sale := 0
                  let sess2 : Session := ⟨some 0⟩
                  -- UPDATE Product SET stock = stock - p_quantity ...
                  if fault = some .updateStockStmt then
                    ⟨.error .systemError, db2, sess2,
                      [.selectForUpdate, .insertSaleStmt, .insertItemStmt]⟩
                  else
                    let db3 := updateStockSub db2 p_product_id qty
                    -- SET v_total = v_price * p_quantity; UPDATE Sale SET total_amount ...
                    let v_total := prod.price * qty.toNat
                    if fault = some .updateTotalStmt then
                      ⟨.error .systemError, db3, sess2,
                        [.selectForUpdate, .insertSaleStmt, .insertItemStmt,
                         .updateStockStmt]⟩
                    else
                      let db4 := setSaleTotal db3 v_sale_id v_total
                      -- INSERT INTO Payment(sale_id, mode, status) VALUES (..., 'CASH', 'SUCCESS')
                      if fault = some .insertPaymentStmt then
                        ⟨.error .systemError, db4, sess2,
                          [.selectForUpdate, .insertSaleStmt, .insertItemStmt,
                           .updateStockStmt, .updateTotalStmt]⟩
                      else
                        let db5 := insertPayment db4 v_sale_id "CASH" "SUCCESS"
                        -- COMMIT
                        if fault = some .commitStmt then
                          ⟨.error .systemError, db5, sess2,
                            [.selectForUpdate, .insertSaleStmt, .insertItemStmt,
                             .updateStockStmt, .updateTotalStmt, .insertPaymentStmt]⟩
                        else
                          ⟨.ok ⟨v_sale_id, v_total⟩, db5, sess2, fullTrace⟩

/-- The procedure's
`DECLARE EXIT HANDLER FOR SQLEXCEPTION BEGIN ROLLBACK; RESIGNAL; END`:
on any SQLEXCEPTION the transaction's writes are discarded (the caller
sees the pre-call database `pre`) and the error is re-raised; session
variables keep the value they had when the error occurred. -/
def applyExitHandler (pre : DBState) (r : SaleCall) : SaleCall :=
  match r.result with
  | .error e => ⟨.error e, pre, r.sess, r.trace⟩
  | .ok out => ⟨.ok out, r.db, r.sess, r.trace⟩

/-- `CALL make_sale(p_customer_id, p_product_id, p_quantity,
p_salesperson_id)`: the procedure body guarded by the EXIT HANDLER. -/
def make_sale (db : DBState) (sess : Session) (fault : Option Step)
    (p_customer_id : Int) (p_product_id : Nat) (p_quantity : Option Int)
    (p_salesperson_id : Int) (now : Nat) : SaleCall :=
  applyExitHandler db
    (make_saleBody db sess fault p_customer_id p_product_id p_quantity
      p_salesperson_id now)

/-! ### Interleavings of the concurrent operations

`FOR UPDATE` serializes concurrent `make_sale` calls on the same Product
row, and every other statement of the core is a single atomic statement,
so any interleaving of concurrent callers is observationally a sequence of
the operations below (each caller carries its own connection's session
state). -/

/-- One operation some connection may perform against the shared store. -/
inductive DBOp where
  /-- `CALL make_sale(...)` on a connection whose `@from_make_sale`
  currently holds `initFlag`, with an optional injected storage fault. -/
  | procCall (initFlag : Option Int) (fault : Option Step) (c : Int)
      (pid : Nat) (q : Option Int) (sp : Int) (now : Nat)
  /-- A direct `INSERT INTO Sale_Item` bypassing the procedure, on a
  connection whose `@from_make_sale` currently holds `flag`. -/
  | rawInsert (flag : Option Int) (sid pid : Nat) (qty : Int) (price : Nat)
  /-- External catalog management updating a price. -/
  | priceUpdate (pid : Nat) (np : Nat)
  /-- The sales route's follow-up `UPDATE Payment SET mode = ?`. -/
  | payModeUpdate (sid : Nat) (m : String)

/-- Effect of one operation on the persisted database. -/
def applyOp (db : DBState) : DBOp → DBState
  | .procCall f fl c pid q sp now => (make_sale db ⟨f⟩ fl c pid q sp now).db
  | .rawInsert f sid pid qty price => (rawInsertSaleItem db ⟨f⟩ sid pid qty price).2
  | .priceUpdate pid np => updatePrice db pid np
  | .payModeUpdate sid m => updatePaymentMode db sid m

/-- Run a sequence of operations (a serialized interleaving). -/
def runOps (db : DBState) (ops : List DBOp) : DBState :=
  ops.foldl applyOp db

/-! ### Well-formedness and the specified invariants -/

/-- `Product.product_id` is a primary key: no two rows share an id. -/
def PkOk (db : DBState) : Prop :=
  (db.products.map (fun p => p.product_id)).Nodup

/-- Invariant 1 of the spec: every Product row has stock >= 0. -/
def StockOk (db : DBState) : Prop :=
  ∀ p ∈ db.products, 0 ≤ p.stock

/-- AUTO_INCREMENT freshness: every Sale row and every Payment's sale
reference is below the Sale counter. -/
def IdsOk (db : DBState) : Prop :=
  (∀ s ∈ db.sales, s.sale_id < db.next_sale_id) ∧
  (∀ p ∈ db.payments, p.sale_id < db.next_sale_id)

/-- Number of Payment rows referencing sale `sid`. -/
def paymentCount (db : DBState) (sid : Nat) : Nat :=
  db.payments.countP (fun p => p.sale_id == sid)

/-- Invariant 3 of the spec: every Sale row has exactly one Payment. -/
def PaymentOk (db : DBState) : Prop :=
  ∀ s ∈ db.sales, paymentCount db s.sale_id = 1

instance : DecidablePred PkOk := fun db => by
  unfold PkOk; infer_instance

instance : DecidablePred StockOk := fun db => by
  unfold StockOk; infer_instance

instance : DecidablePred PaymentOk := fun db => by
  unfold PaymentOk; infer_instance

instance : DecidablePred IdsOk := fun db => by
  unfold IdsOk; infer_instance

/-! ### The HTTP route `POST /api/sale`

src/routes/products.js (sales route, lines 80-119).  A JavaScript
`Number(...)` is modelled as `Option ℚ`: `none` for NaN (or a
non-finite value), `some q` for a finite value; `Number.isInteger`
then means the denominator is 1. -/

/-- `Number.isInteger(x)` for the modelled JS number. -/
def jsIsInteger : Option ℚ → Bool
  | none => false
  | some q => q.den == 1

/-- What the route replies to the HTTP client. -/
inductive RouteResp where
  | okResp (sale_id : Nat) (total_amount : Nat) (payment_mode : String)
  | badRequest (msg : String)
  | saleFailed
  deriving Repr, DecidableEq

/-- `POST /api/sale`: validate `customer_id`, `product_id`, `quantity` as
positive integers (in that order), call the stored procedure, then update
the payment mode.  Returns the response together with the resulting
database, session and the procedure's statement trace (empty when the
request is rejected before reaching the database). -/
def postSale (db : DBState) (sess : Session) (fault : Option Step)
    (customer_id product_id quantity salesperson_id : Option ℚ)
    (payment_mode : String) (now : Nat) :
    RouteResp × DBState × Session × List Step :=
  if ¬ (jsIsInteger customer_id ∧ 0 < (customer_id.getD 0).num) then
    (.badRequest "Invalid customer_id", db, sess, [])
  else if ¬ (jsIsInteger product_id ∧ 0 < (product_id.getD 0).num) then
    (.badRequest "Invalid product_id", db, sess, [])
  else if ¬ (jsIsInteger quantity ∧ 0 < (quantity.getD 0).num) then
    (.badRequest "Invalid quantity", db, sess, [])
  else
    -- `Number(req.body.salesperson_id) || 0`: NaN becomes 0; no integer
    -- check here, MySQL rounds a fractional value to the INT parameter
    let sp : Int := match salesperson_id with
      | none => 0
      | some q => round q
    let r := make_sale db sess fault ((customer_id.getD 0).num)
      ((product_id.getD 0).num.toNat) (some ((quantity.getD 0).num)) sp now
    match r.result with
    | .error _ => (.saleFailed, r.db, r.sess, r.trace)
    | .ok out =>
      (.okResp out.sale_id out.total_amount payment_mode,
        updatePaymentMode r.db out.sale_id payment_mode, r.sess, r.trace)

/-! ### Concrete sample data (first rows of src/db_setup.sql section 6) -/

/-- Products 1 and 2 of the sample data (prices in cents), with the two
sample customers' ids implicit in the Sale rows. -/
def sampleDb : DBState :=
  { products :=
      [⟨1, "Campus Camera Phone A1", "Phone", 1299900, 30,
         "Affordable phone with good camera for students."⟩,
       ⟨2, "Budget Camera Phone B2", "Phone", 999900, 25,
         "Cheap smartphone with decent camera."⟩]
    sales := []
    sale_items := []
    payments := []
    next_sale_id := 1
    next_sale_item_id := 1
    next_payment_id := 1 }

/-- The state after the first sample `CALL make_sale(1, 1, 2, 0)` on
`sampleDb` (one committed sale, line item and payment). -/
def demoDb : DBState :=
  { products :=
      [⟨1, "Campus Camera Phone A1", "Phone", 1299900, 28,
         "Affordable phone with good camera for students."⟩,
       ⟨2, "Budget Camera Phone B2", "Phone", 999900, 25,
         "Cheap smartphone with decent camera."⟩]
    sales := [⟨1, 1, none, 100, 2599800⟩]
    sale_items := [⟨1, 1, 1, 2, 1299900⟩]
    payments := [⟨1, 1, "CASH", "SUCCESS"⟩]
    next_sale_id := 2
    next_sale_item_id := 2
    next_payment_id := 2 }

/-- The store of scenario 1 of the spec (section 8): one item with price
129.99 (12999 cents) and stock 30. -/
def scenarioDb : DBState :=
  { products := [⟨1, "Scenario Item", "Phone", 12999, 30, "spec scenario 1"⟩]
    sales := []
    sale_items := []
    payments := []
    next_sale_id := 1
    next_sale_item_id := 1
    next_payment_id := 1 }

/-- The store of scenario 2 of the spec (section 8): one item with stock 5. -/
def lowStockDb : DBState :=
  { products := [⟨1, "Low Stock Item", "Audio", 500, 5, "spec scenario 2"⟩]
    sales := []
    sale_items := []
    payments := []
    next_sale_id := 1
    next_sale_item_id := 1
    next_payment_id := 1 }

/-! ### Generic list lemmas -/

lemma find?_map_pres {α : Type} (f : α → α) (q : α → Bool)
    (hq : ∀ a, q (f a) = q a) (l : List α) :
    (l.map f).find? q = (l.find? q).map f := by
  induction l with
  | nil => rfl
  | cons a t ih =>
    by_cases h : q a
    · rw [List.map_cons, List.find?_cons_of_pos _ (by rw [hq]; exact h),
        List.find?_cons_of_pos _ h, Option.map_some']
    · rw [List.map_cons, List.find?_cons_of_neg _ (by rw [hq]; exact h),
        List.find?_cons_of_neg _ h, ih]

lemma countP_map_pres {α : Type} (f : α → α) (q : α → Bool)
    (hq : ∀ a, q (f a) = q a) (l : List α) :
    (l.map f).countP q = l.countP q := by
  rw [List.countP_map]
  exact List.countP_congr (fun a _ => by simp [Function.comp, hq a])

lemma find?_eq_of_mem_nodup {α : Type} (key : α → Nat) (l : List α)
    (hnd : (l.map key).Nodup) (x : α) (hx : x ∈ l) :
    l.find? (fun a => key a == key x) = some x := by
  induction l with
  | nil => cases hx
  | cons a t ih =>
    rw [List.map_cons, List.nodup_cons] at hnd
    rcases List.mem_cons.mp hx with h | hxt
    · subst h
      exact List.find?_cons_of_pos _ (by simp)
    · have hne : key a ≠ key x := fun h =>
        hnd.1 (h ▸ List.mem_map_of_mem key hxt)
      rw [List.find?_cons_of_neg _ (by simp [hne]), ih hnd.2 hxt]

/-! ### Field computations for the storage operations -/

lemma findProduct_updateStockSub (db : DBState) (pid qty : _) (pid' : Nat) :
    findProduct (updateStockSub db pid qty) pid' =
      (findProduct db pid').map
        (fun p => if p.product_id = pid then { p with stock := p.stock - qty } else p) := by
  unfold findProduct updateStockSub
  exact find?_map_pres _ _ (fun a => by by_cases h : a.product_id = pid <;> simp [h]) _

lemma findProduct_updatePrice (db : DBState) (pid np : _) (pid' : Nat) :
    findProduct (updatePrice db pid np) pid' =
      (findProduct db pid').map
        (fun p => if p.product_id = pid then { p with price := np } else p) := by
  unfold findProduct updatePrice
  exact find?_map_pres _ _ (fun a => by by_cases h : a.product_id = pid <;> simp [h]) _

lemma findProduct_appendSaleItem (db : DBState) (sid pid : Nat) (qty : Int)
    (price : Nat) (pid' : Nat) :
    findProduct (appendSaleItem db sid pid qty price) pid' = findProduct db pid' := rfl

lemma findProduct_insertSale (db : DBState) (c : Int) (sp : Option Int)
    (now : Nat) (pid' : Nat) :
    findProduct (insertSale db c sp now) pid' = findProduct db pid' := rfl

lemma successDb_products (db : DBState) (c : Int) (pid : Nat) (qty : Int)
    (sp : Int) (now : Nat) (price : Nat) :
    (successDb db c pid qty sp now price).products =
      db.products.map
        (fun p => if p.product_id = pid then { p with stock := p.stock - qty } else p) := rfl

lemma successDb_sales (db : DBState) (c : Int) (pid : Nat) (qty : Int)
    (sp : Int) (now : Nat) (price : Nat) :
    (successDb db c pid qty sp now price).sales =
      (db.sales ++ [(⟨db.next_sale_id, c, (if sp = 0 then none else some sp), now, 0⟩ : Sale)]).map
        (fun s => if s.sale_id = db.next_sale_id
          then { s with total_amount := price * qty.toNat } else s) := rfl

lemma successDb_sale_items (db : DBState) (c : Int) (pid : Nat) (qty : Int)
    (sp : Int) (now : Nat) (price : Nat) :
    (successDb db c pid qty sp now price).sale_items =
      db.sale_items ++ [⟨db.next_sale_item_id, db.next_sale_id, pid, qty, price⟩] := rfl

lemma successDb_payments (db : DBState) (c : Int) (pid : Nat) (qty : Int)
    (sp : Int) (now : Nat) (price : Nat) :
    (successDb db c pid qty sp now price).payments =
      db.payments ++ [⟨db.next_payment_id, db.next_sale_id, "CASH", "SUCCESS"⟩] := rfl

lemma successDb_next_sale_id (db : DBState) (c : Int) (pid : Nat) (qty : Int)
    (sp : Int) (now : Nat) (price : Nat) :
    (successDb db c pid qty sp now price).next_sale_id = db.next_sale_id + 1 := rfl

/-! ### Runs of `make_sale` -/

/-- Inside `make_sale` the coordination flag is 1, so the trigger body is
skipped and the statement is the bare row insertion. -/
lemma insertSaleItemStmt_coordinated (db : DBState) (sid pid : Nat)
    (qty : Int) (price : Nat) :
    insertSaleItemStmt db ⟨some 1⟩ sid pid qty price =
      .ok (appendSaleItem db sid pid qty price) := rfl

/-- A fault-free run on a valid quantity, an existing product and
sufficient stock executes every statement and commits. -/
lemma make_sale_run_ok (db : DBState) (sess : Session) (c : Int) (pid : Nat)
    (qty : Int) (sp : Int) (now : Nat) (prod : Product)
    (hq : 0 < qty) (hfind : findProduct db pid = some prod)
    (hstock : ¬ prod.stock < qty) :
    make_sale db sess none c pid (some qty) sp now =
      ⟨.ok ⟨db.next_sale_id, prod.price * qty.toNat⟩,
        successDb db c pid qty sp now prod.price, ⟨some 0⟩, fullTrace⟩ := by
  unfold make_sale make_saleBody
  rw [hfind]
  simp [applyExitHandler, Int.not_le.mpr hq, hstock, insertSaleItemStmt_coordinated,
    successDb]

/-- `applyExitHandler` never changes the client-visible result. -/
lemma applyExitHandler_result (pre : DBState) (r : SaleCall) :
    (applyExitHandler pre r).result = r.result := by
  cases hr : r.result <;> simp [applyExitHandler, hr]

/-- The EXIT HANDLER's ROLLBACK: a failing call leaves the persisted
database exactly as it was. -/
lemma make_sale_db_of_error (db : DBState) (sess : Session) (fault : Option Step)
    (c : Int) (pid : Nat) (q : Option Int) (sp : Int) (now : Nat) (e : SqlError)
    (h : (make_sale db sess fault c pid q sp now).result = .error e) :
    (make_sale db sess fault c pid q sp now).db = db := by
  unfold make_sale at h ⊢
  rw [applyExitHandler_result] at h
  simp [applyExitHandler, h]

/-- A call that returns rows succeeded: invert the run.  The quantity was a
positive integer, the product existed with sufficient stock, and the final
database is the committed `successDb`. -/
lemma make_sale_ok_inv (db : DBState) (sess : Session) (fault : Option Step)
    (c : Int) (pid : Nat) (q : Option Int) (sp : Int) (now : Nat)
    (out : SaleOutput)
    (h : (make_sale db sess fault c pid q sp now).result = .ok out) :
    ∃ qty prod, q = some qty ∧ 0 < qty ∧ findProduct db pid = some prod ∧
      ¬ prod.stock < qty ∧
      out = ⟨db.next_sale_id, prod.price * qty.toNat⟩ ∧
      make_sale db sess fault c pid q sp now =
        ⟨.ok out, successDb db c pid qty sp now prod.price, ⟨some 0⟩, fullTrace⟩ := by
  rcases q with _ | qty
  · exact absurd h (by simp [make_sale, applyExitHandler, make_saleBody])
  by_cases h1 : qty ≤ 0
  · exact absurd h (by simp [make_sale, applyExitHandler, make_saleBody, h1])
  by_cases h2 : fault = some Step.selectForUpdate
  · exact absurd h (by simp [make_sale, applyExitHandler, make_saleBody, h1, h2])
  cases hfind : findProduct db pid with
  | none =>
    exact absurd h (by simp [make_sale, applyExitHandler, make_saleBody, h1, h2, hfind])
  | some prod =>
  by_cases h3 : prod.stock < qty
  · exact absurd h
      (by simp [make_sale, applyExitHandler, make_saleBody, h1, h2, hfind, h3])
  by_cases h4 : fault = some Step.insertSaleStmt
  · exact absurd h
      (by simp [make_sale, applyExitHandler, make_saleBody, h1, h2, hfind, h3, h4])
  by_cases h5 : fault = some Step.insertItemStmt
  · exact absurd h
      (by simp [make_sale, applyExitHandler, make_saleBody, h1, h2, hfind, h3, h4, h5])
  by_cases h6 : fault = some Step.updateStockStmt
  · exact absurd h
      (by simp [make_sale, applyExitHandler, make_saleBody, h1, h2, hfind, h3, h4, h5,
        h6, insertSaleItemStmt_coordinated])
  by_cases h7 : fault = some Step.updateTotalStmt
  · exact absurd h
      (by simp [make_sale, applyExitHandler, make_saleBody, h1, h2, hfind, h3, h4, h5,
        h6, h7, insertSaleItemStmt_coordinated])
  by_cases h8 : fault = some Step.insertPaymentStmt
  · exact absurd h
      (by simp [make_sale, applyExitHandler, make_saleBody, h1, h2, hfind, h3, h4, h5,
        h6, h7, h8, insertSaleItemStmt_coordinated])
  by_cases h9 : fault = some Step.commitStmt
  · exact absurd h
      (by simp [make_sale, applyExitHandler, make_saleBody, h1, h2, hfind, h3, h4, h5,
        h6, h7, h8, h9, insertSaleItemStmt_coordinated])
  have heq : make_sale db sess fault c pid (some qty) sp now =
      ⟨.ok ⟨db.next_sale_id, prod.price * qty.toNat⟩,
        successDb db c pid qty sp now prod.price, ⟨some 0⟩, fullTrace⟩ := by
    unfold make_sale make_saleBody
    rw [hfind]
    simp [applyExitHandler, h1, h2, h3, h4, h5, h6, h7, h8, h9,
      insertSaleItemStmt_coordinated, successDb]
  have hout : out = ⟨db.next_sale_id, prod.price * qty.toNat⟩ := by
    rw [heq] at h
    exact (Except.ok.inj h).symm
  subst hout
  exact ⟨qty, prod, rfl, Int.not_le.mp h1, rfl, h3, rfl, heq⟩

/-! ### The trigger statement and the uncoordinated write path -/

/-- A Sale_Item insert that went through either left the trigger dormant
(non-zero flag, bare append) or fired it: the stock was decremented and
the re-read stock passed the non-negativity check. -/
lemma insertSaleItemStmt_ok_inv (db : DBState) (sess : Session) (sid pid : Nat)
    (qty : Int) (price : Nat) (db' : DBState)
    (h : insertSaleItemStmt db sess sid pid qty price = .ok db') :
    (¬ sess.from_make_sale.getD 0 = 0 ∧
      db' = appendSaleItem db sid pid qty price) ∨
    (sess.from_make_sale.getD 0 = 0 ∧
      db' = updateStockSub (appendSaleItem db sid pid qty price) pid qty ∧
      ∀ s, getStock db' pid = some s → 0 ≤ s) := by
  unfold insertSaleItemStmt at h
  by_cases hflag : sess.from_make_sale.getD 0 = 0
  · rw [if_pos hflag] at h
    refine Or.inr ⟨hflag, ?_⟩
    cases hg : getStock (updateStockSub (appendSaleItem db sid pid qty price) pid qty) pid with
    | none =>
      rw [hg] at h
      simp only [Except.ok.injEq] at h
      subst h
      exact ⟨rfl, fun s hs => by rw [hg] at hs; cases hs⟩
    | some s =>
      rw [hg] at h
      by_cases hneg : s < 0
      · simp [hneg] at h
      · simp only [if_neg hneg, Except.ok.injEq] at h
        subst h
        exact ⟨rfl, fun s' hs' => by
          rw [hg] at hs'
          cases hs'
          exact Int.not_lt.mp hneg⟩
  · rw [if_neg hflag] at h
    simp only [Except.ok.injEq] at h
    subst h
    exact Or.inl ⟨hflag, rfl⟩

/-- The found product carries the looked-up id. -/
lemma findProduct_id (db : DBState) (pid : Nat) (prod : Product)
    (h : findProduct db pid = some prod) : prod.product_id = pid := by
  have := List.find?_some h
  simpa using this

/-- Under the primary key, a member row is what the point lookup returns. -/
lemma findProduct_eq_of_mem (db : DBState) (hpk : PkOk db) (p : Product)
    (hp : p ∈ db.products) : findProduct db p.product_id = some p := by
  unfold PkOk at hpk
  exact find?_eq_of_mem_nodup (fun x => x.product_id) db.products hpk p hp

/-- Under the primary key, two rows with the same id coincide. -/
lemma mem_pid_unique (db : DBState) (hpk : PkOk db) {p prod : Product} {pid : Nat}
    (hp : p ∈ db.products) (hid : p.product_id = pid)
    (hfind : findProduct db pid = some prod) : p = prod := by
  have h1 := findProduct_eq_of_mem db hpk p hp
  rw [hid, hfind] at h1
  exact (Option.some.inj h1).symm

/-- The stock read back right after `UPDATE Product SET stock = stock - qty`. -/
lemma getStock_updateStockSub_self (db : DBState) (pid : Nat) (qty : Int)
    (prod : Product) (hfind : findProduct db pid = some prod) :
    getStock (updateStockSub db pid qty) pid = some (prod.stock - qty) := by
  unfold getStock
  rw [findProduct_updateStockSub, hfind]
  simp [findProduct_id db pid prod hfind]

/-- The stock of a product other than the decremented one is untouched. -/
lemma getStock_updateStockSub_other (db : DBState) (pid : Nat) (qty : Int)
    (pid' : Nat) (hne : pid' ≠ pid) :
    getStock (updateStockSub db pid qty) pid' = getStock db pid' := by
  unfold getStock
  rw [findProduct_updateStockSub]
  cases hfind : findProduct db pid' with
  | none => rfl
  | some p =>
    have : p.product_id ≠ pid := by
      rw [findProduct_id db pid' p hfind]; exact hne
    simp [this]

/-- Non-negativity of every row after a guarded decrement: if the (unique)
row holding `pid` had stock at least `qty`, the mapped table stays
non-negative. -/
lemma stock_nonneg_map_sub (db : DBState) (pid : Nat) (qty : Int)
    (hpk : PkOk db) (hs : StockOk db) (prod : Product)
    (hfind : findProduct db pid = some prod) (hge : qty ≤ prod.stock) :
    ∀ x ∈ db.products.map
      (fun p => if p.product_id = pid then { p with stock := p.stock - qty } else p),
      0 ≤ x.stock := by
  intro x hx
  rcases List.mem_map.mp hx with ⟨p, hp, rfl⟩
  by_cases hid : p.product_id = pid
  · have hpu : p = prod := mem_pid_unique db hpk hp hid hfind
    subst hpu
    simp only [if_pos hid]
    omega
  · simp only [if_neg hid]
    exact hs p hp

/-- Mapping an id-preserving function over Product leaves the primary-key
column as it was. -/
lemma PkOk_map_products (db : DBState) (g : Product → Product)
    (hg : ∀ p, (g p).product_id = p.product_id) (hpk : PkOk db) :
    ((db.products.map g).map (fun p => p.product_id)).Nodup := by
  rw [List.map_map]
  have hcomp : ((fun p => p.product_id) ∘ g) = (fun p : Product => p.product_id) :=
    funext hg
  rw [hcomp]
  exact hpk

/-- The database after an uncoordinated insert: either an early
constraint/trigger failure left it unchanged, or the statement (with its
trigger) went through. -/
lemma rawInsertSaleItem_db (db : DBState) (sess : Session) (sid pid : Nat)
    (qty : Int) (price : Nat) :
    (rawInsertSaleItem db sess sid pid qty price).2 = db ∨
    (0 < qty ∧ ∃ db', insertSaleItemStmt db sess sid pid qty price = .ok db' ∧
      (rawInsertSaleItem db sess sid pid qty price).2 = db') := by
  unfold rawInsertSaleItem
  by_cases h1 : ¬ saleExists db sid
  · rw [if_pos h1]; exact Or.inl rfl
  rw [if_neg h1]
  by_cases h2 : (findProduct db pid).isNone
  · rw [if_pos h2]; exact Or.inl rfl
  rw [if_neg h2]
  by_cases h3 : qty ≤ 0
  · rw [if_pos h3]; exact Or.inl rfl
  rw [if_neg h3]
  cases hr : insertSaleItemStmt db sess sid pid qty price with
  | error e => exact Or.inl rfl
  | ok db' => exact Or.inr ⟨Int.not_le.mp h3, db', rfl, rfl⟩

/-! ### Preservation of the invariants by every operation -/

/-- One step: the primary key and `stock ≥ 0` survive any operation. -/
lemma applyOp_stock_inv (db : DBState) (op : DBOp)
    (hpk : PkOk db) (hs : StockOk db) :
    PkOk (applyOp db op) ∧ StockOk (applyOp db op) := by
  cases op with
  | procCall f fl c pid q sp now =>
    show PkOk (make_sale db ⟨f⟩ fl c pid q sp now).db ∧
      StockOk (make_sale db ⟨f⟩ fl c pid q sp now).db
    cases hr : (make_sale db ⟨f⟩ fl c pid q sp now).result with
    | error e =>
      rw [make_sale_db_of_error db ⟨f⟩ fl c pid q sp now e hr]
      exact ⟨hpk, hs⟩
    | ok out =>
      rcases make_sale_ok_inv db ⟨f⟩ fl c pid q sp now out hr with
        ⟨qty, prod, hq, hqpos, hfind, hstock, hout, heq⟩
      rw [heq]
      constructor
      · show ((successDb db c pid qty sp now prod.price).products.map _).Nodup
        rw [successDb_products]
        exact PkOk_map_products db _
          (fun p => by by_cases h : p.product_id = pid <;> simp [h]) hpk
      · intro x hx
        rw [successDb_products] at hx
        exact stock_nonneg_map_sub db pid qty hpk hs prod hfind
          (Int.not_lt.mp hstock) x hx
  | rawInsert f sid pid qty price =>
    show PkOk (rawInsertSaleItem db ⟨f⟩ sid pid qty price).2 ∧
      StockOk (rawInsertSaleItem db ⟨f⟩ sid pid qty price).2
    rcases rawInsertSaleItem_db db ⟨f⟩ sid pid qty price with h | ⟨hqpos, db', hok, hdb⟩
    · rw [h]; exact ⟨hpk, hs⟩
    rw [hdb]
    rcases insertSaleItemStmt_ok_inv db ⟨f⟩ sid pid qty price db' hok with
      ⟨_, rfl⟩ | ⟨hflag, rfl, hcheck⟩
    · exact ⟨hpk, hs⟩
    constructor
    · show ((db.products.map _).map _).Nodup
      exact PkOk_map_products db _
        (fun p => by by_cases h : p.product_id = pid <;> simp [h]) hpk
    · cases hfp : findProduct db pid with
      | none =>
        intro x hx
        rcases List.mem_map.mp hx with ⟨p, hp, rfl⟩
        have hne : ¬ p.product_id = pid := by
          have := List.find?_eq_none.mp hfp p hp
          simpa using this
        simp only [if_neg hne]
        exact hs p hp
      | some prod =>
        have hgs := getStock_updateStockSub_self (appendSaleItem db sid pid qty price)
          pid qty prod hfp
        have h0 : 0 ≤ prod.stock - qty := hcheck _ hgs
        intro x hx
        exact stock_nonneg_map_sub db pid qty hpk hs prod hfp (by omega) x hx
  | priceUpdate pid np =>
    constructor
    · show ((db.products.map _).map _).Nodup
      exact PkOk_map_products db _
        (fun p => by by_cases h : p.product_id = pid <;> simp [h]) hpk
    · intro x hx
      rcases List.mem_map.mp hx with ⟨p, hp, rfl⟩
      by_cases h : p.product_id = pid
      · simp only [if_pos h]
        exact hs p hp
      · simp only [if_neg h]
        exact hs p hp
  | payModeUpdate sid m =>
    exact ⟨hpk, hs⟩

/-- Any serialized interleaving preserves the primary key and `stock ≥ 0`. -/
lemma runOps_stock_inv (db : DBState) (ops : List DBOp)
    (hpk : PkOk db) (hs : StockOk db) :
    PkOk (runOps db ops) ∧ StockOk (runOps db ops) := by
  induction ops generalizing db with
  | nil => exact ⟨hpk, hs⟩
  | cons op rest ih =>
    rcases applyOp_stock_inv db op hpk hs with ⟨h1, h2⟩
    exact ih (applyOp db op) h1 h2

/-- `Sale_Item` is append-only: no operation rewrites or deletes a row. -/
lemma applyOp_sale_items (db : DBState) (op : DBOp) :
    ∃ t, (applyOp db op).sale_items = db.sale_items ++ t := by
  cases op with
  | procCall f fl c pid q sp now =>
    show ∃ t, (make_sale db ⟨f⟩ fl c pid q sp now).db.sale_items = db.sale_items ++ t
    cases hr : (make_sale db ⟨f⟩ fl c pid q sp now).result with
    | error e =>
      refine ⟨[], ?_⟩
      rw [make_sale_db_of_error db ⟨f⟩ fl c pid q sp now e hr, List.append_nil]
    | ok out =>
      rcases make_sale_ok_inv db ⟨f⟩ fl c pid q sp now out hr with
        ⟨qty, prod, hq, hqpos, hfind, hstock, hout, heq⟩
      refine ⟨[⟨db.next_sale_item_id, db.next_sale_id, pid, qty, prod.price⟩], ?_⟩
      rw [heq]
      exact successDb_sale_items db c pid qty sp now prod.price
  | rawInsert f sid pid qty price =>
    show ∃ t, (rawInsertSaleItem db ⟨f⟩ sid pid qty price).2.sale_items =
      db.sale_items ++ t
    rcases rawInsertSaleItem_db db ⟨f⟩ sid pid qty price with h | ⟨hqpos, db', hok, hdb⟩
    · exact ⟨[], by rw [h, List.append_nil]⟩
    rw [hdb]
    rcases insertSaleItemStmt_ok_inv db ⟨f⟩ sid pid qty price db' hok with
      ⟨_, rfl⟩ | ⟨hflag, rfl, hcheck⟩ <;>
      exact ⟨[⟨db.next_sale_item_id, sid, pid, qty, price⟩], rfl⟩
  | priceUpdate pid np => exact ⟨[], (List.append_nil _).symm⟩
  | payModeUpdate sid m => exact ⟨[], (List.append_nil _).symm⟩

/-- A committed line item survives, unchanged, every later operation. -/
lemma runOps_sale_items_mem (db : DBState) (ops : List DBOp) (r : SaleItem)
    (hr : r ∈ db.sale_items) : r ∈ (runOps db ops).sale_items := by
  induction ops generalizing db with
  | nil => exact hr
  | cons op rest ih =>
    refine ih (applyOp db op) ?_
    rcases applyOp_sale_items db op with ⟨t, ht⟩
    rw [ht]
    exact List.mem_append_left t hr

/-- Counting payments over an appended singleton. -/
lemma countP_payments_append_single (l : List Payment) (pmt : Payment) (sid : Nat) :
    (l ++ [pmt]).countP (fun p => p.sale_id == sid) =
      l.countP (fun p => p.sale_id == sid) + (if pmt.sale_id = sid then 1 else 0) := by
  rw [List.countP_append]
  congr 1
  by_cases h : pmt.sale_id = sid <;> simp [List.countP_cons, h]

/-- The mapped total-update leaves a Sale row's id unchanged. -/
lemma setTotal_sale_id (s : Sale) (sid : Nat) (total : Nat) :
    (if s.sale_id = sid then { s with total_amount := total } else s).sale_id =
      s.sale_id := by
  by_cases h : s.sale_id = sid <;> simp [h]

/-- One step: AUTO_INCREMENT freshness and one-payment-per-sale survive
any operation. -/
lemma applyOp_payment_inv (db : DBState) (op : DBOp)
    (hi : IdsOk db) (hp : PaymentOk db) :
    IdsOk (applyOp db op) ∧ PaymentOk (applyOp db op) := by
  cases op with
  | procCall f fl c pid q sp now =>
    show IdsOk (make_sale db ⟨f⟩ fl c pid q sp now).db ∧
      PaymentOk (make_sale db ⟨f⟩ fl c pid q sp now).db
    cases hr : (make_sale db ⟨f⟩ fl c pid q sp now).result with
    | error e =>
      rw [make_sale_db_of_error db ⟨f⟩ fl c pid q sp now e hr]
      exact ⟨hi, hp⟩
    | ok out =>
      rcases make_sale_ok_inv db ⟨f⟩ fl c pid q sp now out hr with
        ⟨qty, prod, hq, hqpos, hfind, hstock, hout, heq⟩
      rw [heq]
      constructor
      · constructor
        · intro s hs
          rw [show (successDb db c pid qty sp now prod.price).sales = _ from
            successDb_sales db c pid qty sp now prod.price] at hs
          rcases List.mem_map.mp hs with ⟨s0, hs0, rfl⟩
          rw [setTotal_sale_id, successDb_next_sale_id]
          rcases List.mem_append.mp hs0 with h | h
          · exact Nat.lt_succ_of_lt (hi.1 s0 h)
          · simp only [List.mem_singleton] at h
            subst h
            exact Nat.lt_succ_self _
        · intro pmt hpm
          rw [show (successDb db c pid qty sp now prod.price).payments = _ from
            successDb_payments db c pid qty sp now prod.price] at hpm
          rw [successDb_next_sale_id]
          rcases List.mem_append.mp hpm with h | h
          · exact Nat.lt_succ_of_lt (hi.2 pmt h)
          · simp only [List.mem_singleton] at h
            subst h
            exact Nat.lt_succ_self _
      · intro s hs
        rw [show (successDb db c pid qty sp now prod.price).sales = _ from
          successDb_sales db c pid qty sp now prod.price] at hs
        rcases List.mem_map.mp hs with ⟨s0, hs0, rfl⟩
        show paymentCount (successDb db c pid qty sp now prod.price) _ = 1
        unfold paymentCount
        rw [show (successDb db c pid qty sp now prod.price).payments = _ from
          successDb_payments db c pid qty sp now prod.price]
        rw [countP_payments_append_single, setTotal_sale_id]
        rcases List.mem_append.mp hs0 with h | h
        · have hlt : s0.sale_id < db.next_sale_id := hi.1 s0 h
          have h1 := hp s0 h
          unfold paymentCount at h1
          rw [h1]
          have hne : ¬ db.next_sale_id = s0.sale_id := by omega
          simp [hne]
        · simp only [List.mem_singleton] at h
          subst h
          have hzero : db.payments.countP
              (fun p => p.sale_id == db.next_sale_id) = 0 :=
            List.countP_eq_zero.mpr (fun pmt hpm => by
              have := hi.2 pmt hpm
              simp only [beq_iff_eq]
              omega)
          simp [hzero]
  | rawInsert f sid pid qty price =>
    show IdsOk (rawInsertSaleItem db ⟨f⟩ sid pid qty price).2 ∧
      PaymentOk (rawInsertSaleItem db ⟨f⟩ sid pid qty price).2
    rcases rawInsertSaleItem_db db ⟨f⟩ sid pid qty price with h | ⟨hqpos, db', hok, hdb⟩
    · rw [h]; exact ⟨hi, hp⟩
    rw [hdb]
    rcases insertSaleItemStmt_ok_inv db ⟨f⟩ sid pid qty price db' hok with
      ⟨_, rfl⟩ | ⟨hflag, rfl, hcheck⟩ <;> exact ⟨hi, hp⟩
  | priceUpdate pid np =>
    exact ⟨hi, hp⟩
  | payModeUpdate sid m =>
    constructor
    · refine ⟨fun s hs => hi.1 s hs, fun pmt hpm => ?_⟩
      rcases List.mem_map.mp hpm with ⟨p0, hp0, rfl⟩
      have : (if p0.sale_id = sid then { p0 with mode := m } else p0).sale_id =
          p0.sale_id := by
        by_cases h : p0.sale_id = sid <;> simp [h]
      rw [this]
      exact hi.2 p0 hp0
    · intro s hs
      show paymentCount (updatePaymentMode db sid m) s.sale_id = 1
      unfold paymentCount updatePaymentMode
      rw [countP_map_pres _ _ (fun p => by
        by_cases h : p.sale_id = sid <;> simp [h])]
      exact hp s hs

/-- Any serialized interleaving preserves freshness and
one-payment-per-sale. -/
lemma runOps_payment_inv (db : DBState) (ops : List DBOp)
    (hi : IdsOk db) (hp : PaymentOk db) :
    IdsOk (runOps db ops) ∧ PaymentOk (runOps db ops) := by
  induction ops generalizing db with
  | nil => exact ⟨hi, hp⟩
  | cons op rest ih =>
    rcases applyOp_payment_inv db op hi hp with ⟨h1, h2⟩
    exact ih (applyOp db op) h1 h2

/-- Looking up the fresh sale in the committed state. -/
lemma findSale_successDb (db : DBState) (c : Int) (pid : Nat) (qty : Int)
    (sp : Int) (now : Nat) (price : Nat) (hi : IdsOk db) :
    findSale (successDb db c pid qty sp now price) db.next_sale_id =
      some ⟨db.next_sale_id, c, (if sp = 0 then none else some sp), now,
        price * qty.toNat⟩ := by
  unfold findSale
  rw [show (successDb db c pid qty sp now price).sales = _ from
    successDb_sales db c pid qty sp now price]
  rw [find?_map_pres _ _ (fun s => by rw [setTotal_sale_id])]
  rw [List.find?_append]
  have h1 : db.sales.find? (fun s => s.sale_id == db.next_sale_id) = none :=
    List.find?_eq_none.mpr (fun s hs => by
      have := hi.1 s hs
      simp only [beq_iff_eq]
      omega)
  rw [h1]
  simp

/-! ### The claims -/

/-- C1: For every CatalogItem (Product row), `stock ≥ 0` holds at every
observable point: starting from a well-keyed store in which every stock is
non-negative, after any serialized interleaving of `make_sale` calls,
Stock-Guard-checked direct Sale_Item inserts, price updates and
payment-mode updates — in particular before and after every individual
`submit_sale` call and after any trigger-enforced write — every Product
row still has `stock ≥ 0` (concurrent calls on one item serialize on the
`FOR UPDATE` row lock, so any interleaving is one such sequence). -/
theorem stock_never_negative (db : DBState) (ops : List DBOp)
    (hpk : PkOk db) (hs : StockOk db) : StockOk (runOps db ops) :=
  (runOps_stock_inv db ops hpk hs).2

theorem stock_never_negative_witness :
    PkOk sampleDb ∧ StockOk sampleDb ∧
      StockOk (runOps sampleDb
        [.procCall none none 1 1 (some 2) 0 100,
         .rawInsert (some 0) 1 2 (30 : Int) 999900,
         .procCall none none 2 2 (some 100) 0 101]) :=
  ⟨by decide, by decide,
    stock_never_negative sampleDb
      [.procCall none none 1 1 (some 2) 0 100,
       .rawInsert (some 0) 1 2 (30 : Int) 999900,
       .procCall none none 2 2 (some 100) 0 101] (by decide) (by decide)⟩

/-- C2: if a `make_sale` call fails for any reason — invalid quantity,
invalid item, insufficient stock, or a storage fault injected at any
statement (including COMMIT) — then no Sale, Sale_Item or Payment row is
persisted and every product's stock is exactly as before the call: the
EXIT HANDLER's ROLLBACK leaves the persisted database unchanged. -/
theorem failed_sale_leaves_state_unchanged (db : DBState) (sess : Session)
    (fault : Option Step) (c : Int) (pid : Nat) (q : Option Int) (sp : Int)
    (now : Nat) (e : SqlError)
    (h : (make_sale db sess fault c pid q sp now).result = .error e) :
    (make_sale db sess fault c pid q sp now).db.sales = db.sales ∧
    (make_sale db sess fault c pid q sp now).db.sale_items = db.sale_items ∧
    (make_sale db sess fault c pid q sp now).db.payments = db.payments ∧
    ∀ pid', getStock (make_sale db sess fault c pid q sp now).db pid' =
      getStock db pid' := by
  have hdb := make_sale_db_of_error db sess fault c pid q sp now e h
  rw [hdb]
  exact ⟨rfl, rfl, rfl, fun _ => rfl⟩

theorem failed_sale_leaves_state_unchanged_witness :
    (make_sale sampleDb ⟨none⟩ (some .updateStockStmt) 1 1 (some 2) 0 100).result =
      .error .systemError ∧
    ((make_sale sampleDb ⟨none⟩ (some .updateStockStmt) 1 1 (some 2) 0 100).db.sales =
        sampleDb.sales ∧
      (make_sale sampleDb ⟨none⟩ (some .updateStockStmt) 1 1
          (some 2) 0 100).db.sale_items = sampleDb.sale_items ∧
      (make_sale sampleDb ⟨none⟩ (some .updateStockStmt) 1 1
          (some 2) 0 100).db.payments = sampleDb.payments ∧
      ∀ pid', getStock (make_sale sampleDb ⟨none⟩ (some .updateStockStmt) 1 1
          (some 2) 0 100).db pid' = getStock sampleDb pid') :=
  ⟨rfl, failed_sale_leaves_state_unchanged sampleDb ⟨none⟩ (some .updateStockStmt)
    1 1 (some 2) 0 100 .systemError rfl⟩

/-- C3: after a successful `submit_sale(item, qty)`, that item's stock
decreases by exactly `qty` — the decrement happens exactly once, the
Stock Guard being suppressed on this path — and the stock of every other
item is unchanged. -/
theorem submit_sale_conservation (db : DBState) (sess : Session)
    (fault : Option Step) (c : Int) (pid : Nat) (q : Option Int) (sp : Int)
    (now : Nat) (out : SaleOutput)
    (h : (make_sale db sess fault c pid q sp now).result = .ok out) :
    ∃ qty prod, q = some qty ∧ 0 < qty ∧ findProduct db pid = some prod ∧
      getStock (make_sale db sess fault c pid q sp now).db pid =
        some (prod.stock - qty) ∧
      ∀ pid', pid' ≠ pid →
        getStock (make_sale db sess fault c pid q sp now).db pid' =
          getStock db pid' := by
  rcases make_sale_ok_inv db sess fault c pid q sp now out h with
    ⟨qty, prod, hq, hqpos, hfind, hstock, hout, heq⟩
  refine ⟨qty, prod, hq, hqpos, hfind, ?_, ?_⟩
  · rw [heq]
    exact getStock_updateStockSub_self db pid qty prod hfind
  · intro pid' hne
    rw [heq]
    exact getStock_updateStockSub_other db pid qty pid' hne

theorem submit_sale_conservation_witness :
    (make_sale sampleDb ⟨none⟩ none 1 1 (some 2) 0 100).result =
      .ok ⟨1, 2599800⟩ ∧
    (∃ qty prod, (some 2 : Option Int) = some qty ∧ 0 < qty ∧
      findProduct sampleDb 1 = some prod ∧
      getStock (make_sale sampleDb ⟨none⟩ none 1 1 (some 2) 0 100).db 1 =
        some (prod.stock - qty) ∧
      ∀ pid', pid' ≠ 1 →
        getStock (make_sale sampleDb ⟨none⟩ none 1 1 (some 2) 0 100).db pid' =
          getStock sampleDb pid') :=
  ⟨rfl, submit_sale_conservation sampleDb ⟨none⟩ none 1 1 (some 2) 0 100
    ⟨1, 2599800⟩ rfl⟩

/-- C4: with a valid quantity, once past the lock acquisition
(`SELECT ... FOR UPDATE`), `make_sale` re-checks the item under the lock:
a missing item fails `InvalidItem` and a quantity above the current stock
fails `InsufficientStock`; in both cases the call returns the pre-call
database (the rollback releases the lock), the session is untouched, the
stock remains, and no order is created — the trace stops at the locking
read. -/
theorem locked_recheck_failures (db : DBState) (sess : Session)
    (fault : Option Step) (c : Int) (pid : Nat) (qty : Int) (sp : Int) (now : Nat)
    (hq : 0 < qty) (hfault : fault ≠ some Step.selectForUpdate) :
    (findProduct db pid = none →
      make_sale db sess fault c pid (some qty) sp now =
        ⟨.error .invalidItem, db, sess, [.selectForUpdate]⟩) ∧
    (∀ prod, findProduct db pid = some prod → prod.stock < qty →
      make_sale db sess fault c pid (some qty) sp now =
        ⟨.error .insufficientStock, db, sess, [.selectForUpdate]⟩) := by
  constructor
  · intro hfind
    unfold make_sale make_saleBody
    rw [hfind]
    simp [applyExitHandler, Int.not_le.mpr hq, hfault]
  · intro prod hfind hlt
    unfold make_sale make_saleBody
    rw [hfind]
    simp [applyExitHandler, Int.not_le.mpr hq, hfault, hlt]

theorem locked_recheck_failures_witness :
    make_sale lowStockDb ⟨none⟩ none 1 1 (some 6) 0 50 =
      ⟨.error .insufficientStock, lowStockDb, ⟨none⟩, [.selectForUpdate]⟩ ∧
    make_sale lowStockDb ⟨none⟩ none 1 999999 (some 1) 0 50 =
      ⟨.error .invalidItem, lowStockDb, ⟨none⟩, [.selectForUpdate]⟩ :=
  ⟨(locked_recheck_failures lowStockDb ⟨none⟩ none 1 1 6 0 50 (by decide)
      (by decide)).2 ⟨1, "Low Stock Item", "Audio", 500, 5, "spec scenario 2"⟩
      rfl (by decide),
   (locked_recheck_failures lowStockDb ⟨none⟩ none 1 999999 1 0 50 (by decide)
      (by decide)).1 rfl⟩

/-- C5: on success, the committed Sale row's `total_amount` equals
`unit_price × quantity`, where `unit_price` is the item's price read under
the lock; the returned total agrees, and the item's stock drops by the
quantity (e.g. price 129.99 and qty 2 give total 259.98 with stock going
from 30 to 28 — see the witness on `scenarioDb`). -/
theorem order_total_correct (db : DBState) (sess : Session)
    (fault : Option Step) (c : Int) (pid : Nat) (q : Option Int) (sp : Int)
    (now : Nat) (out : SaleOutput) (hi : IdsOk db)
    (h : (make_sale db sess fault c pid q sp now).result = .ok out) :
    ∃ qty prod, q = some qty ∧ findProduct db pid = some prod ∧
      out.total_amount = prod.price * qty.toNat ∧
      findSale (make_sale db sess fault c pid q sp now).db out.sale_id =
        some ⟨db.next_sale_id, c, (if sp = 0 then none else some sp), now,
          prod.price * qty.toNat⟩ ∧
      getStock (make_sale db sess fault c pid q sp now).db pid =
        some (prod.stock - qty) := by
  rcases make_sale_ok_inv db sess fault c pid q sp now out h with
    ⟨qty, prod, hq, hqpos, hfind, hstock, hout, heq⟩
  refine ⟨qty, prod, hq, hfind, by rw [hout], ?_, ?_⟩
  · rw [heq, hout]
    exact findSale_successDb db c pid qty sp now prod.price hi
  · rw [heq]
    exact getStock_updateStockSub_self db pid qty prod hfind

theorem order_total_correct_witness :
    IdsOk scenarioDb ∧
    (make_sale scenarioDb ⟨none⟩ none 1 1 (some 2) 0 7).result =
      .ok ⟨1, 25998⟩ ∧
    (∃ qty prod, (some 2 : Option Int) = some qty ∧
      findProduct scenarioDb 1 = some prod ∧
      (⟨1, 25998⟩ : SaleOutput).total_amount = prod.price * qty.toNat ∧
      findSale (make_sale scenarioDb ⟨none⟩ none 1 1 (some 2) 0 7).db
          (⟨1, 25998⟩ : SaleOutput).sale_id =
        some ⟨scenarioDb.next_sale_id, 1, (if (0 : Int) = 0 then none else some 0),
          7, prod.price * (qty.toNat)⟩ ∧
      getStock (make_sale scenarioDb ⟨none⟩ none 1 1 (some 2) 0 7).db 1 =
        some (prod.stock - qty)) :=
  ⟨by decide, rfl,
    order_total_correct scenarioDb ⟨none⟩ none 1 1 (some 2) 0 7 ⟨1, 25998⟩
      (by decide) rfl⟩

/-- C6: the Stock Guard fires exactly on Sale_Item insertions not marked
as coordinated (session flag absent or 0): it decrements the referenced
item's stock by the inserted quantity and aborts the whole statement with
`ConsistencyViolation` — leaving the database unchanged — when the
resulting stock would be negative; with the coordination mark set
(non-zero flag, as the Order Processor sets `@from_make_sale := 1`) the
trigger performs no stock update at all, the insert being the bare row
append. -/
theorem stock_guard_behavior (db : DBState) (sid pid : Nat) (qty : Int)
    (price : Nat) (prod : Product)
    (hsale : saleExists db sid = true) (hfind : findProduct db pid = some prod)
    (hq : 0 < qty) :
    (∀ sess : Session, sess.from_make_sale.getD 0 = 0 → prod.stock - qty < 0 →
      rawInsertSaleItem db sess sid pid qty price =
        (.error .consistencyViolation, db)) ∧
    (∀ sess : Session, sess.from_make_sale.getD 0 = 0 → 0 ≤ prod.stock - qty →
      rawInsertSaleItem db sess sid pid qty price =
        (.ok (), updateStockSub (appendSaleItem db sid pid qty price) pid qty)) ∧
    (∀ sess : Session, ¬ sess.from_make_sale.getD 0 = 0 →
      rawInsertSaleItem db sess sid pid qty price =
        (.ok (), appendSaleItem db sid pid qty price) ∧
      (rawInsertSaleItem db sess sid pid qty price).2.products = db.products) ∧
    insertSaleItemStmt db ⟨some 1⟩ sid pid qty price =
      .ok (appendSaleItem db sid pid qty price) := by
  have hgs : getStock (updateStockSub (appendSaleItem db sid pid qty price) pid qty)
      pid = some (prod.stock - qty) :=
    getStock_updateStockSub_self (appendSaleItem db sid pid qty price) pid qty
      prod hfind
  refine ⟨?_, ?_, ?_, insertSaleItemStmt_coordinated db sid pid qty price⟩
  · intro sess hflag hneg
    have hstmt : insertSaleItemStmt db sess sid pid qty price =
        .error .consistencyViolation := by
      unfold insertSaleItemStmt
      rw [if_pos hflag, hgs]
      simp [hneg]
    unfold rawInsertSaleItem
    rw [if_neg (by simp [hsale]), if_neg (by simp [hfind]),
      if_neg (Int.not_le.mpr hq), hstmt]
  · intro sess hflag hpos
    have hstmt : insertSaleItemStmt db sess sid pid qty price =
        .ok (updateStockSub (appendSaleItem db sid pid qty price) pid qty) := by
      unfold insertSaleItemStmt
      rw [if_pos hflag, hgs]
      simp [Int.not_lt.mpr hpos]
    unfold rawInsertSaleItem
    rw [if_neg (by simp [hsale]), if_neg (by simp [hfind]),
      if_neg (Int.not_le.mpr hq), hstmt]
  · intro sess hflag
    have hstmt : insertSaleItemStmt db sess sid pid qty price =
        .ok (appendSaleItem db sid pid qty price) := by
      unfold insertSaleItemStmt
      rw [if_neg hflag]
    have h1 : rawInsertSaleItem db sess sid pid qty price =
        (.ok (), appendSaleItem db sid pid qty price) := by
      unfold rawInsertSaleItem
      rw [if_neg (by simp [hsale]), if_neg (by simp [hfind]),
        if_neg (Int.not_le.mpr hq), hstmt]
    exact ⟨h1, by rw [h1]; rfl⟩

theorem stock_guard_behavior_witness :
    rawInsertSaleItem demoDb ⟨some 0⟩ 1 2 30 999900 =
      (.error .consistencyViolation, demoDb) ∧
    rawInsertSaleItem demoDb ⟨none⟩ 1 2 5 999900 =
      (.ok (), updateStockSub (appendSaleItem demoDb 1 2 5 999900) 2 5) ∧
    rawInsertSaleItem demoDb ⟨some 1⟩ 1 2 30 999900 =
      (.ok (), appendSaleItem demoDb 1 2 30 999900) :=
  ⟨(stock_guard_behavior demoDb 1 2 30 999900
      ⟨2, "Budget Camera Phone B2", "Phone", 999900, 25,
        "Cheap smartphone with decent camera."⟩
      (by decide) rfl (by decide)).1 ⟨some 0⟩ (by decide) (by decide),
   (stock_guard_behavior demoDb 1 2 5 999900
      ⟨2, "Budget Camera Phone B2", "Phone", 999900, 25,
        "Cheap smartphone with decent camera."⟩
      (by decide) rfl (by decide)).2.1 ⟨none⟩ (by decide) (by decide),
   ((stock_guard_behavior demoDb 1 2 30 999900
      ⟨2, "Budget Camera Phone B2", "Phone", 999900, 25,
        "Cheap smartphone with decent camera."⟩
      (by decide) rfl (by decide)).2.2.1 ⟨some 1⟩ (by decide)).1⟩

/-- C7: the Sale_Item written by a successful sale carries `price` equal
to the Product's price at the moment of the sale (the value read under
the `FOR UPDATE` lock), and that row — price included — persists unchanged
through any later sequence of operations, in particular through later
price updates to the referenced Product. -/
theorem line_item_price_snapshot (db : DBState) (sess : Session)
    (fault : Option Step) (c : Int) (pid : Nat) (q : Option Int) (sp : Int)
    (now : Nat) (out : SaleOutput)
    (h : (make_sale db sess fault c pid q sp now).result = .ok out) :
    ∃ qty prod, q = some qty ∧ findProduct db pid = some prod ∧
      (⟨db.next_sale_item_id, db.next_sale_id, pid, qty, prod.price⟩ : SaleItem) ∈
        (make_sale db sess fault c pid q sp now).db.sale_items ∧
      ∀ ops : List DBOp,
        (⟨db.next_sale_item_id, db.next_sale_id, pid, qty, prod.price⟩ : SaleItem) ∈
          (runOps (make_sale db sess fault c pid q sp now).db ops).sale_items := by
  rcases make_sale_ok_inv db sess fault c pid q sp now out h with
    ⟨qty, prod, hq, hqpos, hfind, hstock, hout, heq⟩
  have hmem : (⟨db.next_sale_item_id, db.next_sale_id, pid, qty, prod.price⟩ :
      SaleItem) ∈ (make_sale db sess fault c pid q sp now).db.sale_items := by
    rw [heq]
    show _ ∈ (successDb db c pid qty sp now prod.price).sale_items
    rw [successDb_sale_items]
    exact List.mem_append_right _ (List.mem_singleton_self _)
  exact ⟨qty, prod, hq, hfind, hmem,
    fun ops => runOps_sale_items_mem _ ops _ hmem⟩

theorem line_item_price_snapshot_witness :
    (make_sale sampleDb ⟨none⟩ none 1 1 (some 2) 0 100).result =
      .ok ⟨1, 2599800⟩ ∧
    (∃ qty prod, (some 2 : Option Int) = some qty ∧
      findProduct sampleDb 1 = some prod ∧
      (⟨1, 1, 1, qty, prod.price⟩ : SaleItem) ∈
        (make_sale sampleDb ⟨none⟩ none 1 1 (some 2) 0 100).db.sale_items ∧
      ∀ ops : List DBOp, (⟨1, 1, 1, qty, prod.price⟩ : SaleItem) ∈
        (runOps (make_sale sampleDb ⟨none⟩ none 1 1 (some 2) 0 100).db
          ops).sale_items) :=
  ⟨rfl, line_item_price_snapshot sampleDb ⟨none⟩ none 1 1 (some 2) 0 100
    ⟨1, 2599800⟩ rfl⟩

/-- C8: every committed Sale row has exactly one Payment row, under any
serialized interleaving of the operations; moreover each successful
`make_sale` creates exactly one Payment row for the new sale, with the
default mode `CASH` and status `SUCCESS` (the sales route's later
`UPDATE Payment SET mode` maps rows in place and neither creates nor
deletes Payment rows). -/
theorem one_payment_per_order (db : DBState) (ops : List DBOp)
    (hi : IdsOk db) (hp : PaymentOk db) :
    PaymentOk (runOps db ops) ∧
    ∀ (sess : Session) (fault : Option Step) (c : Int) (pid : Nat)
      (q : Option Int) (sp : Int) (now : Nat) (out : SaleOutput),
      (make_sale db sess fault c pid q sp now).result = .ok out →
      paymentCount (make_sale db sess fault c pid q sp now).db out.sale_id = 1 ∧
      (⟨db.next_payment_id, db.next_sale_id, "CASH", "SUCCESS"⟩ : Payment) ∈
        (make_sale db sess fault c pid q sp now).db.payments := by
  refine ⟨(runOps_payment_inv db ops hi hp).2, ?_⟩
  intro sess fault c pid q sp now out h
  rcases make_sale_ok_inv db sess fault c pid q sp now out h with
    ⟨qty, prod, hq, hqpos, hfind, hstock, hout, heq⟩
  constructor
  · rw [heq, hout]
    show paymentCount (successDb db c pid qty sp now prod.price)
      db.next_sale_id = 1
    unfold paymentCount
    rw [show (successDb db c pid qty sp now prod.price).payments = _ from
      successDb_payments db c pid qty sp now prod.price]
    rw [countP_payments_append_single]
    have hzero : db.payments.countP (fun p => p.sale_id == db.next_sale_id) = 0 :=
      List.countP_eq_zero.mpr (fun pmt hpm => by
        have := hi.2 pmt hpm
        simp only [beq_iff_eq]
        omega)
    simp [hzero]
  · rw [heq]
    show _ ∈ (successDb db c pid qty sp now prod.price).payments
    rw [successDb_payments]
    exact List.mem_append_right _ (List.mem_singleton_self _)

theorem one_payment_per_order_witness :
    IdsOk sampleDb ∧ PaymentOk sampleDb ∧
    PaymentOk (runOps sampleDb
      [.procCall none none 1 1 (some 2) 0 100, .payModeUpdate 1 "UPI"]) ∧
    (make_sale sampleDb ⟨none⟩ none 1 1 (some 2) 0 100).result =
      .ok ⟨1, 2599800⟩ ∧
    paymentCount (make_sale sampleDb ⟨none⟩ none 1 1 (some 2) 0 100).db
      (⟨1, 2599800⟩ : SaleOutput).sale_id = 1 ∧
    (⟨1, 1, "CASH", "SUCCESS"⟩ : Payment) ∈
      (make_sale sampleDb ⟨none⟩ none 1 1 (some 2) 0 100).db.payments :=
  ⟨by decide, by decide,
    (one_payment_per_order sampleDb
      [.procCall none none 1 1 (some 2) 0 100, .payModeUpdate 1 "UPI"]
      (by decide) (by decide)).1,
    rfl,
    ((one_payment_per_order sampleDb [] (by decide) (by decide)).2
      ⟨none⟩ none 1 1 (some 2) 0 100 ⟨1, 2599800⟩ rfl).1,
    ((one_payment_per_order sampleDb [] (by decide) (by decide)).2
      ⟨none⟩ none 1 1 (some 2) 0 100 ⟨1, 2599800⟩ rfl).2⟩

/-- C9: a call whose quantity is NULL or ≤ 0 fails `InvalidQuantity`
before `START TRANSACTION`: no lock is taken and no storage statement runs
(empty trace, database and session untouched); and the HTTP route rejects
a non-integer or non-positive quantity (for otherwise valid customer and
product ids) with `Invalid quantity` without calling the procedure at
all. -/
theorem invalid_quantity_rejected_early (db : DBState) (sess : Session)
    (fault : Option Step) (c : Int) (pid : Nat) (q : Option Int) (sp : Int)
    (now : Nat)
    (hq : q = none ∨ ∃ n, q = some n ∧ n ≤ 0)
    (cid pidq qjs spjs : Option ℚ) (mode : String)
    (hc : jsIsInteger cid ∧ 0 < (cid.getD 0).num)
    (hpd : jsIsInteger pidq ∧ 0 < (pidq.getD 0).num)
    (hqjs : ¬ (jsIsInteger qjs ∧ 0 < (qjs.getD 0).num)) :
    make_sale db sess fault c pid q sp now =
      ⟨.error .invalidQuantity, db, sess, []⟩ ∧
    postSale db sess fault cid pidq qjs spjs mode now =
      (.badRequest "Invalid quantity", db, sess, []) := by
  constructor
  · rcases hq with rfl | ⟨n, rfl, hn⟩
    · rfl
    · unfold make_sale make_saleBody
      simp [applyExitHandler, hn]
  · unfold postSale
    rw [if_neg (not_not_intro hc), if_neg (not_not_intro hpd), if_pos hqjs]

theorem invalid_quantity_rejected_early_witness :
    make_sale sampleDb ⟨none⟩ none 1 1 (some 0) 0 5 =
      ⟨.error .invalidQuantity, sampleDb, ⟨none⟩, []⟩ ∧
    postSale sampleDb ⟨none⟩ none (some 1) (some 1) (some (mkRat 1 2)) (some 0)
      "CASH" 5 = (.badRequest "Invalid quantity", sampleDb, ⟨none⟩, []) :=
  invalid_quantity_rejected_early sampleDb ⟨none⟩ none 1 1 (some 0) 0 5
    (Or.inr ⟨0, rfl, by decide⟩) (some 1) (some 1) (some (mkRat 1 2)) (some 0)
    "CASH" (by decide) (by decide) (by decide)

/-- C10: if `make_sale` aborts at the Sale_Item insert — after
`SET @from_make_sale := 1` and before the reset to 0 — the EXIT HANDLER
rolls the transaction back (database unchanged) but the session flag stays
1 on that connection; any subsequent uncoordinated Sale_Item insert on the
same pooled connection then passes the trigger's `IFNULL(...) = 0` test
negatively, so the Stock Guard performs no decrement and no negative-stock
check: the insert succeeds as a bare append even when the quantity exceeds
the stock, until the flag is next overwritten. -/
theorem stale_coordination_flag (db : DBState) (sess : Session) (c : Int)
    (pid : Nat) (qty : Int) (sp : Int) (now : Nat) (prod : Product)
    (hqpos : 0 < qty) (hfind : findProduct db pid = some prod)
    (hstock : ¬ prod.stock < qty) :
    make_sale db sess (some .insertItemStmt) c pid (some qty) sp now =
      ⟨.error .systemError, db, ⟨some 1⟩, [.selectForUpdate, .insertSaleStmt]⟩ ∧
    ∀ (sid pid' : Nat) (qty' : Int) (price' : Nat),
      saleExists db sid = true → (findProduct db pid').isSome → 0 < qty' →
      rawInsertSaleItem db ⟨some 1⟩ sid pid' qty' price' =
        (.ok (), appendSaleItem db sid pid' qty' price') ∧
      (rawInsertSaleItem db ⟨some 1⟩ sid pid' qty' price').2.products =
        db.products := by
  constructor
  · unfold make_sale make_saleBody
    rw [hfind]
    simp [applyExitHandler, Int.not_le.mpr hqpos, hstock]
  · intro sid pid' qty' price' hsale hfp hq'
    have hnone : ¬ (findProduct db pid').isNone = true := by
      cases hx : findProduct db pid' with
      | none => rw [hx] at hfp; cases hfp
      | some v => simp [hx]
    have h1 : rawInsertSaleItem db ⟨some 1⟩ sid pid' qty' price' =
        (.ok (), appendSaleItem db sid pid' qty' price') := by
      unfold rawInsertSaleItem
      rw [if_neg (by simp [hsale]), if_neg hnone,
        if_neg (Int.not_le.mpr hq'), insertSaleItemStmt_coordinated]
    exact ⟨h1, by rw [h1]; rfl⟩

theorem stale_coordination_flag_witness :
    make_sale demoDb ⟨some 0⟩ (some .insertItemStmt) 2 1 (some 2) 0 200 =
      ⟨.error .systemError, demoDb, ⟨some 1⟩,
        [.selectForUpdate, .insertSaleStmt]⟩ ∧
    (rawInsertSaleItem demoDb ⟨some 1⟩ 1 2 1000 999900 =
        (.ok (), appendSaleItem demoDb 1 2 1000 999900) ∧
      (rawInsertSaleItem demoDb ⟨some 1⟩ 1 2 1000 999900).2.products =
        demoDb.products) :=
  ⟨(stale_coordination_flag demoDb ⟨some 0⟩ 2 1 2 0 200
      ⟨1, "Campus Camera Phone A1", "Phone", 1299900, 28,
        "Affordable phone with good camera for students."⟩
      (by decide) rfl (by decide)).1,
    (stale_coordination_flag demoDb ⟨some 0⟩ 2 1 2 0 200
      ⟨1, "Campus Camera Phone A1", "Phone", 1299900, 28,
        "Affordable phone with good camera for students."⟩
      (by decide) rfl (by decide)).2 1 2 1000 999900
      (by decide) (by decide) (by decide)⟩

end DBMSProject
